import Mathlib

/-!
Verification development for the panos-upgrade orchestrator.

Shallow embedding of the parts of the source that the checked claims talk
about.  Pure helpers from the Python source are translated into Lean
functions on the same data; the effectful orchestration code is translated
into explicit state passing, with the device-side responses supplied by an
environment record that is consumed call-site by call-site.  String-valued
status fields mirror the lowercase enum values used by the source
(`models.py`), and integer progress values are modelled as naturals, since
Python floor division on non-negative integers coincides with Nat division.

Source files embedded here:
  src/panos_upgrade/models.py               (DeviceStatus and friends)
  src/panos_upgrade/utils/file_ops.py       (atomic_write_json)
  src/panos_upgrade/daemon.py               (RateLimiter, job-file routing)
  src/panos_upgrade/direct_firewall_client.py  (disk-space parsing, pollers)
  src/panos_upgrade/upgrade_manager.py      (upgrade state machine)
-/

namespace PanosUpgrade

/-- Decidable equality for `Except`, used to evaluate parser results on
concrete inputs. -/
instance exceptDecidableEq {E A : Type} [DecidableEq E] [DecidableEq A] :
    DecidableEq (Except E A) := fun x y =>
  match x, y with
  | Except.error a, Except.error b =>
    if h : a = b then isTrue (by rw [h]) else isFalse (by simp [h])
  | Except.ok a, Except.ok b =>
    if h : a = b then isTrue (by rw [h]) else isFalse (by simp [h])
  | Except.error _, Except.ok _ => isFalse (by simp)
  | Except.ok _, Except.error _ => isFalse (by simp)

/-! ## Device status model

Mirrors the fields of `DeviceStatus` that `upgrade_manager.py` reads and
writes.  `starting_version` and `skipped_versions` are fields written by
`upgrade_manager.py` (`models.py` in the tree is an older revision that does
not yet declare them).  The wall-clock `last_updated` timestamp and the
free-form error `details`/`timestamp` fields are not modelled; an error
record is kept as a (phase, message) pair. -/

structure DeviceStatus where
  serial : String
  hostname : String
  ha_role : String
  current_version : String
  starting_version : String
  target_version : String
  upgrade_path : List String
  current_path_index : Nat
  upgrade_status : String
  progress : Nat
  current_phase : String
  upgrade_message : String
  disk_available_gb : Option Rat
  disk_required_gb : Option Rat
  disk_check_passed : Bool
  downloaded_versions : List String
  skipped_versions : List String
  ready_for_install : Bool
  skip_reason : String
  errors : List (String × String)
deriving DecidableEq, Repr

/-- Mirrors `DeviceStatus.add_error` from models.py: append a (phase,
message) error record. -/
def addError (st : DeviceStatus) (phase message : String) : DeviceStatus :=
  { st with errors := st.errors ++ [(phase, message)] }

/-! ## Atomic JSON store (utils/file_ops.py, `atomic_write_json`)

The filesystem is abstracted to the destination path content and whether
the temporary file created by `tempfile.mkstemp` still exists.  The
`failAt` parameter selects which of the fallible steps executed after the
temporary file was created raises (JSON serialization, flush, fsync, or
the final `os.replace`); `none` means every step succeeds.  The source
cleans up with `os.unlink(temp_path)` in its except-branch and re-raises;
the model assumes the unlink itself succeeds, as the claim does. -/

inductive WriteStep where
  | serializeData
  | flushData
  | fsyncData
  | renameTemp
deriving DecidableEq, Repr

structure FsState (A : Type) where
  dest : Option A
  tempExists : Bool
deriving DecidableEq, Repr

def atomic_write_json {A : Type} (fs : FsState A) (data : A)
    (failAt : Option WriteStep) : FsState A × Except Unit Unit :=
  -- tempfile.mkstemp: the temporary file now exists
  let fs1 : FsState A := { fs with tempExists := true }
  if failAt = some WriteStep.serializeData then
    ({ fs1 with tempExists := false }, Except.error ())
  else if failAt = some WriteStep.flushData then
    ({ fs1 with tempExists := false }, Except.error ())
  else if failAt = some WriteStep.fsyncData then
    ({ fs1 with tempExists := false }, Except.error ())
  else if failAt = some WriteStep.renameTemp then
    ({ fs1 with tempExists := false }, Except.error ())
  else
    -- os.replace atomically renames the temp file over the destination
    ({ dest := some data, tempExists := false }, Except.ok ())

/-! ## Rate limiter (daemon.py, `RateLimiter`)

Continuous time is modelled as a rational clock value handed to each
acquire attempt.  `rate_limiter_acquire` is the body of the while loop of
`RateLimiter.acquire` under the lock: one refill-and-try step.  A
non-blocking call returns its boolean directly; a blocking call repeats
the step until it yields `true`. -/

structure RateLimiterState where
  requests_per_minute : Rat
  tokens : Rat
  last_update : Rat
deriving DecidableEq, Repr

/-- Mirrors `RateLimiter.__init__`: the bucket starts full at
`requests_per_minute` tokens. -/
def rate_limiter_init (r t0 : Rat) : RateLimiterState :=
  { requests_per_minute := r, tokens := r, last_update := t0 }

/-- The refill computation inside `acquire`:
`min(requests_per_minute, tokens + elapsed * requests_per_minute / 60)`. -/
def rate_limiter_refill (rl : RateLimiterState) (now : Rat) : Rat :=
  min rl.requests_per_minute
    (rl.tokens + (now - rl.last_update) * rl.requests_per_minute / 60)

/-- One acquire attempt: refill, then consume a token if at least one
whole token is available. -/
def rate_limiter_acquire (rl : RateLimiterState) (now : Rat) :
    Bool × RateLimiterState :=
  let t := rate_limiter_refill rl now
  if 1 ≤ t then
    (true, { rl with tokens := t - 1, last_update := now })
  else
    (false, { rl with tokens := t, last_update := now })

/-! ## Disk-space parsing (direct_firewall_client.py, `_parse_disk_space_output`)

The parser is total apart from Python `float()` applied to the regex group
`[\d.]+`: a group such as `1.2.3` or `.` matches the regex but raises
`ValueError` inside `float()`.  The embedding returns `Except Unit Rat`
where `Except.error ()` marks that raised exception and `Except.ok` the
normal return value (in GB). -/

/-- Lowercase an ASCII character, as Python `str.lower()` does on the
ASCII flag values the device reports. -/
def asciiLower (c : Char) : Char :=
  if 'A' ≤ c ∧ c ≤ 'Z' then Char.ofNat (c.toNat + 32) else c

/-- Embeds Python `str.lower()` (ASCII range). -/
def pyLower (s : String) : String :=
  String.mk (s.data.map asciiLower)

/-- Value of a non-empty all-digit character list, `none` otherwise. -/
def digitsVal (cs : List Char) : Option Nat :=
  if cs ≠ [] ∧ cs.all Char.isDigit then
    some (cs.foldl (fun a c => a * 10 + (c.toNat - 48)) 0)
  else
    none

/-- Embeds `int(progress_str)` guarded by the try/except that falls back
to 0: an optional minus sign followed by digits parses, anything else is
0 (further Python `int()` spellings such as embedded underscores or
surrounding whitespace do not occur in device job responses and are not
modelled). -/
def pyToIntOr0 (s : String) : Int :=
  match s.data with
  | '-' :: rest =>
    match digitsVal rest with
    | some n => -(n : Int)
    | none => 0
  | cs =>
    match digitsVal cs with
    | some n => (n : Int)
    | none => 0

/-- Split a character list at every separator satisfying `p`, keeping
empty chunks (as Python `str.split('\n')` does); `acc` holds the current
chunk reversed. -/
def splitCharsBy (p : Char → Bool) : List Char → List Char → List (List Char)
  | [], acc => [acc.reverse]
  | c :: rest, acc =>
    if p c then acc.reverse :: splitCharsBy p rest []
    else splitCharsBy p rest (c :: acc)

/-- Python `str.strip()` on a character list. -/
def stripChars (cs : List Char) : List Char :=
  ((cs.dropWhile Char.isWhitespace).reverse.dropWhile Char.isWhitespace).reverse

/-- Python `str.rstrip()` on a character list. -/
def rstripChars (cs : List Char) : List Char :=
  (cs.reverse.dropWhile Char.isWhitespace).reverse

/-- Python no-argument `str.split()` on a character list: whitespace-
separated chunks with empties dropped. -/
def splitWsChars (cs : List Char) : List (List Char) :=
  (splitCharsBy Char.isWhitespace cs []).filter (fun chunk => chunk ≠ [])

/-- Numeric value of a digit string, 0 for the empty string (as in the
fractional or integral part of a Python float literal). -/
def natFromDigits (cs : List Char) : Nat :=
  cs.foldl (fun a c => a * 10 + (c.toNat - 48)) 0

/-- Python `float()` on a string made only of digits and dots: defined
exactly when there is at most one dot and at least one digit.  The value
is returned as an exact numerator-denominator pair (the fraction
`intPart.fracPart` over `10 ^ length fracPart`). -/
def decimalValue (cs : List Char) : Option (Nat × Nat) :=
  if cs.count '.' ≤ 1 ∧ cs.any Char.isDigit then
    let intPart := cs.takeWhile (fun c => c ≠ '.')
    let fracPart := (cs.dropWhile (fun c => c ≠ '.')).drop 1
    some (natFromDigits intPart * 10 ^ fracPart.length + natFromDigits fracPart,
      10 ^ fracPart.length)
  else
    none

/-- Scale an available-column value by its unit suffix, as in the source:
G is returned as-is, M and K are divided down, T is multiplied up, and a
bare number is treated as bytes.  The value arrives as the exact fraction
`num / den` from `decimalValue`. -/
def scaleByUnit (num den : Nat) (unit : Option Char) : Rat :=
  match unit with
  | some 'G' => Rat.divInt num den
  | some 'M' => Rat.divInt num (den * 1024)
  | some 'T' => Rat.divInt (num * 1024) den
  | some 'K' => Rat.divInt num (den * 1024 * 1024)
  | _ => Rat.divInt num (den * 1024 * 1024 * 1024)

/-- Process one line of df-like output for one target mount.  `none` means
the source loop continues to the next line; `some r` means the function
returns (`r = Except.error ()` when `float()` raises). -/
def tryDiskLine (target : String) (line : List Char) : Option (Except Unit Rat) :=
  -- skip header line and blank lines
  if List.isPrefixOf "Filesystem".data line ∨ stripChars line = [] then
    none
  -- the mount must match exactly at end of line, preceded by a space
  else if ¬ (List.isSuffixOf (' ' :: target.data) (rstripChars line)) then
    none
  else
    match splitWsChars line with
    | _ :: _ :: _ :: avail :: _ =>
      -- re.match of ([\d.]+)([GMKT]?) against the available column
      let numPart := avail.takeWhile (fun c => c.isDigit ∨ c = '.')
      if numPart = [] then
        none
      else
        let rest := avail.drop numPart.length
        let unit : Option Char :=
          match rest with
          | c :: _ => if c ∈ ['G', 'M', 'K', 'T'] then some c else none
          | [] => none
        match decimalValue numPart with
        | some v => some (Except.ok (scaleByUnit v.1 v.2 unit))
        | none => some (Except.error ())
    | _ => none

/-- Embeds `_parse_disk_space_output`: try the software-repo partition
first, then fall back to the root mount, returning 0 when no line
matches. -/
def parse_disk_space_output (text : String) : Except Unit Rat :=
  let lines := splitCharsBy (fun c => c = '\n') (stripChars text.data) []
  match lines.findSome? (tryDiskLine "/opt/pancfg") with
  | some r => r
  | none =>
    match lines.findSome? (tryDiskLine "/") with
    | some r => r
    | none => Except.ok 0

/-! ## Device job pollers (direct_firewall_client.py)

`wait_for_download` / `wait_for_install` poll `check_job_status` at a fixed
interval.  A polling run is embedded as a fold over the finite list of
status responses the device hands back, one per poll; exhausting the list
corresponds to the overall timeout (the source then returns `False`).
The progress string is parsed with Python `int()`, falling back to 0 on a
parse error, and `last_progress` starts at -1.  The first component of the
result collects, in order, the values passed to the progress callback. -/

structure JobStatusObs where
  status : String
  result : String
  progress_str : String
  details : String
deriving DecidableEq, Repr

/-- Embeds the polling loop of `wait_for_download` (a progress callback is
assumed to be supplied, as the claim does): the callback fires whenever the
parsed progress differs from `last_progress`, then a `FIN` status returns
success iff the result is `OK`, and any other status keeps polling. -/
def wait_for_download_loop : List JobStatusObs → Int → List Int × Bool
  | [], _ => ([], false)
  | obs :: rest, lastP =>
    let progress : Int := pyToIntOr0 obs.progress_str
    let fired : List Int := if progress ≠ lastP then [progress] else []
    let lastP2 : Int := if progress ≠ lastP then progress else lastP
    if obs.status = "FIN" then
      (fired, obs.result = "OK")
    else
      let r := wait_for_download_loop rest lastP2
      (fired ++ r.1, r.2)

/-- Embeds the polling loop of `wait_for_install`, which duplicates the
`wait_for_download` logic line for line in the source. -/
def wait_for_install_loop : List JobStatusObs → Int → List Int × Bool
  | [], _ => ([], false)
  | obs :: rest, lastP =>
    let progress : Int := pyToIntOr0 obs.progress_str
    let fired : List Int := if progress ≠ lastP then [progress] else []
    let lastP2 : Int := if progress ≠ lastP then progress else lastP
    if obs.status = "FIN" then
      (fired, obs.result = "OK")
    else
      let r := wait_for_install_loop rest lastP2
      (fired ++ r.1, r.2)

/-! ## Stall-aware job poller

Modelled from the spec: the stall-aware variant of the download/install
poller — the one `upgrade_manager.py` actually invokes, passing
`stall_timeout=` and consuming a `JobResult` with `success`/`stalled`/
`details` fields, and the one the unit tests call with `stall_timeout=5` —
is absent from the source tree (`direct_firewall_client.py` holds the older
boolean-returning poller above, without stall detection, and does not
define `JobResult`).  Following spec section 4.6, the poller returns a
result variant: Success on FIN/OK, Failed with details on a terminal
non-OK result, and Stalled carrying the last observed progress when the
reported progress has not advanced for `stall_timeout` seconds. -/

structure JobResult where
  success : Bool
  stalled : Bool
  details : String
deriving DecidableEq, Repr

structure JobObs where
  status : String
  result : String
  progress : Nat
  details : String
deriving DecidableEq, Repr

inductive PollOutcome where
  | success
  | failed (details : String)
  | stalled (last_progress : Nat)
  | timedOut
deriving DecidableEq, Repr

/-- One status observation with an active job reporting progress `p`. -/
def mkActObs (p : Nat) : JobObs :=
  { status := "ACT", result := "", progress := p, details := "" }

/-- Modelled from the spec (section 4.6): poll the trace of job-status
observations, one every `poll_interval` seconds starting at `now`,
tracking the largest progress seen and the time it last advanced; a
terminal FIN status classifies as success or failure, and otherwise the
poll stalls once `stall_timeout` seconds pass without an advance. -/
def wait_for_job (stall_timeout poll_interval : Nat) :
    List JobObs → Nat → Nat → Nat → PollOutcome
  | [], _, _, _ => PollOutcome.timedOut
  | obs :: rest, now, lastP, lastAdv =>
    let adv := lastP < obs.progress
    let lastP2 := if adv then obs.progress else lastP
    let lastAdv2 := if adv then now else lastAdv
    if obs.status = "FIN" then
      if obs.result = "OK" then PollOutcome.success
      else PollOutcome.failed obs.details
    else if stall_timeout ≤ now - lastAdv2 then
      PollOutcome.stalled lastP2
    else
      wait_for_job stall_timeout poll_interval rest
        (now + poll_interval) lastP2 lastAdv2

/-! ## Upgrade state machine (upgrade_manager.py)

The orchestration methods are embedded as pure functions over a
`RunState` (device status plus the trace of persisted status writes and of
device-side commands issued) with device responses supplied by an `FwEnv`
environment, one slot per call site.  Phases that abort return through the
`Except` error channel, mirroring the `return False` early exits of
`_execute_upgrade_path`.  Dry-run branches are not modelled (the claims
are about real runs), and log-only calls are omitted. -/

structure ManagerConfig where
  min_disk_gb : Rat
  download_retry_attempts : Nat
deriving DecidableEq, Repr

/-- One entry of the `software_info` version list, with the string-valued
`downloaded`/`current` flags the device reports. -/
structure SwEntry where
  version : String
  downloaded : String
  current : String
deriving DecidableEq, Repr

inductive Action where
  | validateDevice
  | refreshSoftwareList
  | downloadStart (version : String)
  | installStart (version : String)
  | rebootDevice
deriving DecidableEq, Repr

/-- Snapshot persisted by one `_save_device_status` call (the fields the
claims inspect). -/
structure StatusWrite where
  phase : String
  progress : Nat
  status : String
deriving DecidableEq, Repr

structure RunState where
  st : DeviceStatus
  writes : List StatusWrite
  actions : List Action
deriving DecidableEq, Repr

/-- Mirrors `_save_device_status` (via `atomic_write_json`): append the
current status snapshot to the write trace. -/
def saveStatus (rs : RunState) : RunState :=
  { rs with writes := rs.writes ++
      [{ phase := rs.st.current_phase, progress := rs.st.progress,
         status := rs.st.upgrade_status }] }

/-- Device-side responses for one `_execute_upgrade_path` run, one slot
per call site: downloads are indexed by the position in the upgrade path
and, where retries occur, by the 1-based attempt number. -/
structure FwEnv where
  validationPass : Bool
  validationError : String
  validationDisk : Rat
  cancelled : Bool
  softwareCheckDone : Bool
  dlInfo : Nat → List SwEntry
  disk : Nat → Rat
  dlJob : Nat → Nat → Option String
  dlReports : Nat → Nat → List Nat
  dlResult : Nat → Nat → JobResult
  verifyInfo : List SwEntry
  installJob : Option String
  installReports : List Nat
  installResult : JobResult
  rebootOk : Bool
  readyOk : Bool

/-- Mirrors the `update_download_progress` closure in
`_download_all_images`: for each progress value the poller reports, map it
into this version's slice of the 15-50 range and persist. -/
def applyDownloadReports (baseCb slice : Nat) (version : String)
    (reports : List Nat) (rs : RunState) : RunState :=
  reports.foldl (fun rs p =>
    saveStatus { rs with st := { rs.st with
      progress := baseCb + (p * slice) / 100,
      upgrade_message := "Downloading " ++ version ++ ": " ++ toString p ++ "%" } }) rs

/-- Mirrors the retry loop of `_download_all_images` for one version:
`remaining` counts attempts left, `attempt` is the 1-based attempt number,
and `lastError` threads the last failure message.  Returns the run state,
whether a download attempt succeeded, and the last error message. -/
def downloadAttempts (env : FwEnv) (idx total slice baseCb totalAttempts : Nat)
    (version : String) :
    Nat → Nat → String → RunState → RunState × Bool × String
  | 0, _, lastError, rs => (rs, false, lastError)
  | remaining + 1, attempt, lastError, rs =>
    let rs := if 1 < attempt then
        saveStatus { rs with st := { rs.st with
          upgrade_message := "Retry " ++ toString attempt ++ "/" ++
            toString totalAttempts ++ ": Downloading " ++ version } }
      else rs
    let rs := saveStatus { rs with st := { rs.st with
      upgrade_message := "Downloading " ++ version ++ " (" ++
        toString (idx + 1) ++ "/" ++ toString total ++ ")" } }
    -- download_software is issued on every attempt
    let rs := { rs with actions := rs.actions ++ [Action.downloadStart version] }
    match env.dlJob idx attempt with
    | none =>
      downloadAttempts env idx total slice baseCb totalAttempts version
        remaining (attempt + 1)
        ("Failed to initiate download of " ++ version) rs
    | some jobId =>
      let rs := saveStatus { rs with st := { rs.st with
        upgrade_message := "Downloading " ++ version ++ " (job " ++ jobId ++ ")..." } }
      let rs := applyDownloadReports baseCb slice version (env.dlReports idx attempt) rs
      let result := env.dlResult idx attempt
      if result.success then
        ({ rs with st := { rs.st with
           downloaded_versions := rs.st.downloaded_versions ++ [version] } },
         true, lastError)
      else
        let err := if result.stalled then
            "Download of " ++ version ++ " stalled: " ++ result.details
          else
            "Download of " ++ version ++ " failed: " ++ result.details
        downloadAttempts env idx total slice baseCb totalAttempts version
          remaining (attempt + 1) err rs

/-- Mirrors the per-version loop of `_download_all_images`: cancellation
checkpoint, per-version progress base `15 + idx * 35 // total`, skip of
already-downloaded versions, disk check, then the retry loop. -/
def downloadLoop (cfg : ManagerConfig) (env : FwEnv) (total : Nat) :
    List String → Nat → RunState → Except RunState RunState
  | [], _, rs => Except.ok rs
  | version :: rest, idx, rs =>
    if env.cancelled then
      Except.error (saveStatus { rs with st := { rs.st with
        upgrade_status := "cancelled",
        upgrade_message := "Upgrade cancelled by admin" } })
    else
      let rs := saveStatus { rs with st := { rs.st with
        current_path_index := idx,
        progress := 15 + (idx * 35) / max total 1,
        upgrade_message := "Processing image " ++ toString (idx + 1) ++ "/" ++
          toString total ++ ": " ++ version } }
      let info := env.dlInfo idx
      let alreadyDownloaded := info.any (fun sw =>
        sw.version = version ∧ pyLower sw.downloaded = "yes")
      if alreadyDownloaded then
        let rs := saveStatus { rs with st := { rs.st with
          upgrade_message := "Version " ++ version ++ " already downloaded",
          skipped_versions := rs.st.skipped_versions ++ [version] } }
        downloadLoop cfg env total rest (idx + 1) rs
      else
        let d := env.disk idx
        let rs := { rs with st := { rs.st with
          disk_available_gb := some d,
          disk_required_gb := some cfg.min_disk_gb,
          disk_check_passed := decide (cfg.min_disk_gb ≤ d) } }
        if d < cfg.min_disk_gb then
          -- numeric formatting of the source message is not modelled
          let msg := "Insufficient disk space before downloading " ++ version
          let stF := addError ({ rs.st with
            upgrade_status := "failed", upgrade_message := msg }) "download" msg
          Except.error (saveStatus { rs with st := stF })
        else
          let slice := 35 / max total 1
          let res := downloadAttempts env idx total slice (15 + idx * slice)
            cfg.download_retry_attempts version
            cfg.download_retry_attempts 1 "" rs
          if res.2.1 then
            downloadLoop cfg env total rest (idx + 1) res.1
          else
            let err := res.2.2 ++ " after " ++
              toString cfg.download_retry_attempts ++ " attempts"
            let stF := addError ({ res.1.st with
              upgrade_status := "failed", upgrade_message := err }) "download" err
            Except.error (saveStatus { res.1 with st := stF })

/-- Embeds `_verify_all_images_downloaded`: collect the versions the
device reports as downloaded, then list every version of the upgrade path
missing from that collection. -/
def verify_all_images_downloaded (info : List SwEntry) (path : List String) :
    List String :=
  let downloaded := (info.filter (fun sw => pyLower sw.downloaded = "yes")).map
    (fun sw => sw.version)
  path.filter (fun v => ¬ v ∈ downloaded)

/-- Phase 1 of `_execute_upgrade_path`: pre-flight validation. -/
def preflightPhase (cfg : ManagerConfig) (env : FwEnv) (rs : RunState) :
    Except RunState RunState :=
  let rs := saveStatus { rs with st := { rs.st with
    current_phase := "pre_flight_validation",
    upgrade_status := "validating",
    progress := 5,
    upgrade_message := "Running pre-flight validation" } }
  let rs := { rs with actions := rs.actions ++ [Action.validateDevice] }
  if env.validationPass then
    Except.ok { rs with st := { rs.st with
      disk_available_gb := some env.validationDisk,
      disk_required_gb := some cfg.min_disk_gb,
      disk_check_passed := true } }
  else
    let stF := addError rs.st "pre_flight_validation" env.validationError
    Except.error (saveStatus { rs with st := stF })

/-- Phase 2: refresh the software list once per device (non-fatal). -/
def refreshPhase (env : FwEnv) (rs : RunState) : Except RunState RunState :=
  if env.softwareCheckDone then
    Except.ok rs
  else
    let rs := saveStatus { rs with st := { rs.st with
      progress := 10,
      upgrade_message := "Refreshing available software versions..." } }
    Except.ok { rs with actions := rs.actions ++ [Action.refreshSoftwareList] }

/-- Phase 3: enter the download phase and run the per-version loop. -/
def downloadPhase (cfg : ManagerConfig) (env : FwEnv) (total : Nat)
    (path : List String) (rs : RunState) : Except RunState RunState :=
  let rs := saveStatus { rs with st := { rs.st with
    current_phase := "download",
    upgrade_status := "downloading",
    progress := 15,
    upgrade_message := "Preparing to download " ++ toString total ++ " image(s)" } }
  downloadLoop cfg env total path 0 rs

/-- Phase 4: the hard verification gate after all downloads. -/
def verifyPhase (env : FwEnv) (path : List String) (rs : RunState) :
    Except RunState RunState :=
  let rs := saveStatus { rs with st := { rs.st with
    progress := 55,
    upgrade_message := "Verifying all images are downloaded..." } }
  let missing := verify_all_images_downloaded env.verifyInfo path
  if missing.isEmpty then
    Except.ok rs
  else
    let err := "Verification failed: missing images: " ++
      String.intercalate ", " missing
    let stF := addError ({ rs.st with
      upgrade_status := "failed", upgrade_message := err }) "download" err
    Except.error (saveStatus { rs with st := stF })

/-- Mirrors the `update_install_progress` closure: the source computes
`60 + int(progress * 0.15)`; it is modelled as exact rational scaling
truncated to a natural, and every claim scenario leaves the install report
list empty so no claim depends on this rounding. -/
def applyInstallReports (version : String) (reports : List Nat)
    (rs : RunState) : RunState :=
  reports.foldl (fun rs p =>
    saveStatus { rs with st := { rs.st with
      progress := 60 + (p * 15) / 100,
      upgrade_message := "Installing " ++ version ++ ": " ++ toString p ++ "%" } }) rs

/-- Phase 5: install only the final version of the path. -/
def installPhase (env : FwEnv) (finalVersion : String) (rs : RunState) :
    Except RunState RunState :=
  let rs := saveStatus { rs with st := { rs.st with
    current_phase := "install",
    upgrade_status := "installing",
    progress := 60,
    upgrade_message := "Installing final version " ++ finalVersion } }
  let rs := { rs with actions := rs.actions ++ [Action.installStart finalVersion] }
  match env.installJob with
  | none =>
    let stF := addError rs.st "install"
      ("Failed to initiate installation of " ++ finalVersion)
    Except.error (saveStatus { rs with st := stF })
  | some jobId =>
    let rs := saveStatus { rs with st := { rs.st with
      upgrade_message := "Installing " ++ finalVersion ++ " (job " ++ jobId ++ ")..." } }
    let rs := applyInstallReports finalVersion env.installReports rs
    if env.installResult.success then
      Except.ok rs
    else
      let err := if env.installResult.stalled then
          "Installation of " ++ finalVersion ++ " stalled: " ++ env.installResult.details
        else
          "Installation of " ++ finalVersion ++ " failed: " ++ env.installResult.details
      let msg := if env.installResult.stalled then
          "Job stalled: Installation of " ++ finalVersion
        else
          "Install failed: " ++ env.installResult.details
      let stF := addError ({ rs.st with upgrade_message := msg }) "install" err
      Except.error (saveStatus { rs with st := stF })

/-- Phase 6: reboot and wait for the device to return. -/
def rebootPhase (env : FwEnv) (finalVersion : String) (rs : RunState) :
    Except RunState RunState :=
  let rs := saveStatus { rs with st := { rs.st with
    current_phase := "reboot",
    upgrade_status := "rebooting",
    progress := 75,
    upgrade_message := "Rebooting device to activate version " ++ finalVersion } }
  let rs := { rs with actions := rs.actions ++ [Action.rebootDevice] }
  if env.rebootOk then
    let rs := saveStatus { rs with st := { rs.st with
      upgrade_message := "Reboot initiated, waiting for shutdown..." } }
    let rs := saveStatus { rs with st := { rs.st with
      upgrade_message := "Waiting for device to come back online after reboot" } }
    if env.readyOk then
      Except.ok (saveStatus { rs with st := { rs.st with
        upgrade_message := "Device is back online, stabilizing..." } })
    else
      let stF := addError rs.st "reboot" "Device did not come back online after reboot"
      Except.error (saveStatus { rs with st := stF })
  else
    let stF := addError rs.st "reboot" "Failed to initiate reboot"
    Except.error (saveStatus { rs with st := stF })

/-- Phase 7: post-flight validation is never fatal. -/
def postflightPhase (finalVersion : String) (rs : RunState) :
    Except RunState RunState :=
  Except.ok (saveStatus { rs with st := { rs.st with
    current_phase := "post_flight_validation",
    progress := 90,
    upgrade_message := "Running post-flight validation for version " ++ finalVersion } })

/-- Finalization inside `_execute_upgrade_path`: record the new current
version and full progress. -/
def finalizePhase (finalVersion : String) (rs : RunState) : RunState :=
  saveStatus { rs with st := { rs.st with
    current_version := finalVersion,
    progress := 100,
    upgrade_message := "Successfully upgraded to version " ++ finalVersion } }

/-- Embeds `_execute_upgrade_path`: the phase pipeline, with the `Except`
error channel standing for the early `return False` exits. -/
def execute_upgrade_path (cfg : ManagerConfig) (env : FwEnv)
    (st0 : DeviceStatus) : RunState × Bool :=
  let path := st0.upgrade_path
  let finalVersion := path.getLast?.getD ""
  let total := path.length
  let r : Except RunState RunState := do
    let rs ← preflightPhase cfg env { st := st0, writes := [], actions := [] }
    let rs ← refreshPhase env rs
    let rs ← downloadPhase cfg env total path rs
    let rs ← verifyPhase env path rs
    let rs ← installPhase env finalVersion rs
    let rs ← rebootPhase env finalVersion rs
    let rs ← postflightPhase finalVersion rs
    pure (finalizePhase finalVersion rs)
  match r with
  | Except.ok rs => (rs, true)
  | Except.error rs => (rs, false)

/-! ## Load-or-init and path lookup (`upgrade_device` head) -/

def in_progress_statuses : List String :=
  ["pending", "validating", "downloading", "installing", "rebooting"]

/-- Embeds `_load_existing_device_status`: the stored file (if any) is
resumed only when its status is non-terminal and a starting version was
recorded. -/
def load_existing_device_status (file : Option DeviceStatus) :
    Option DeviceStatus :=
  match file with
  | none => none
  | some d =>
    if d.upgrade_status ∈ in_progress_statuses then
      if d.starting_version ≠ "" then some d else none
    else none

/-- Embeds `_init_device_status`. -/
def init_device_status (serial : String) : DeviceStatus :=
  { serial := serial, hostname := serial, ha_role := "standalone",
    current_version := "", starting_version := "", target_version := "",
    upgrade_path := [], current_path_index := 0, upgrade_status := "pending",
    progress := 0, current_phase := "", upgrade_message := "",
    disk_available_gb := none, disk_required_gb := none,
    disk_check_passed := false, downloaded_versions := [],
    skipped_versions := [], ready_for_install := false, skip_reason := "",
    errors := [] }

/-- Outcome of the identify-and-path-lookup prefix of `upgrade_device`
(through the call of `_execute_upgrade_path`). -/
inductive HeadOutcome where
  | failedInit (st : DeviceStatus)
  | skippedNoPath (st : DeviceStatus) (lookupVersion : String)
  | alreadyComplete (st : DeviceStatus)
  | proceed (st : DeviceStatus)
deriving DecidableEq, Repr

/-- True exactly on the early-complete outcome. -/
def isAlreadyComplete : HeadOutcome → Bool
  | HeadOutcome.alreadyComplete _ => true
  | _ => false

/-- Embeds the prefix of `upgrade_device` up to the call of
`_execute_upgrade_path`: load-or-init, inventory lookup, live system info,
choice of the version used for the upgrade-path lookup, and the in-path /
at-target branching. -/
def upgrade_device_head (paths : List (String × List String))
    (statusFile : Option DeviceStatus) (mgmt_ip : Option String)
    (live hostname serial : String) : HeadOutcome :=
  let existing := load_existing_device_status statusFile
  let st0 := match existing with
    | some d => if d.starting_version ≠ "" then d else init_device_status serial
    | none => init_device_status serial
  match mgmt_ip with
  | none =>
    let msg := "Device " ++ serial ++ " not found in inventory or has no management IP"
    let stF := addError ({ st0 with
      upgrade_status := "failed", upgrade_message := msg }) "init" msg
    HeadOutcome.failedInit stF
  | some _ =>
    let st1 := { st0 with hostname := hostname, current_version := live,
                          ha_role := "standalone" }
    let lookupVersion := if st1.starting_version ≠ "" then st1.starting_version else live
    let st2 := if st1.starting_version ≠ "" then st1
               else { st1 with starting_version := live }
    match paths.lookup lookupVersion with
    | none =>
      let msg := "No upgrade path found for version " ++ lookupVersion
      HeadOutcome.skippedNoPath { st2 with
        upgrade_status := "skipped", skip_reason := msg,
        upgrade_message := "Skipped: No upgrade path for version " ++ lookupVersion }
        lookupVersion
    | some upath =>
      let st3 := { st2 with upgrade_path := upath,
                            target_version := upath.getLast?.getD "" }
      if live ∈ upath then
        HeadOutcome.proceed { st3 with
          current_path_index := upath.indexOf live + 1 }
      else if live = st3.target_version then
        HeadOutcome.alreadyComplete { st3 with
          upgrade_status := "complete",
          upgrade_message := "Device already at target version " ++ live }
      else
        HeadOutcome.proceed st3

/-- Embeds `upgrade_device` end to end: the head decision followed, on
`proceed`, by `_execute_upgrade_path` and the final complete/failed status
write.  The status writes performed inside the non-proceed head branches
are not part of the collected trace (no claim inspects them). -/
def upgrade_device_run (cfg : ManagerConfig) (env : FwEnv)
    (paths : List (String × List String)) (statusFile : Option DeviceStatus)
    (mgmt_ip : Option String) (live hostname serial : String) :
    RunState × Bool :=
  match upgrade_device_head paths statusFile mgmt_ip live hostname serial with
  | HeadOutcome.failedInit st => ({ st := st, writes := [], actions := [] }, false)
  | HeadOutcome.skippedNoPath st _ => ({ st := st, writes := [], actions := [] }, false)
  | HeadOutcome.alreadyComplete st => ({ st := st, writes := [], actions := [] }, true)
  | HeadOutcome.proceed st =>
    let res := execute_upgrade_path cfg env st
    if res.2 then
      (saveStatus { res.1 with st := { res.1.st with
        upgrade_status := "complete",
        upgrade_message := "Upgrade completed successfully to version " ++
          res.1.st.target_version } }, true)
    else
      (saveStatus { res.1 with st := { res.1.st with
        upgrade_status := "failed",
        upgrade_message := "Upgrade failed - see error log for details" } }, false)

/-! ## Cancellation bookkeeping and job-file routing

`cancel_upgrade` and `_is_cancelled` from upgrade_manager.py, and the
completion routing of `_execute_upgrade_with_completion` from daemon.py,
which decides the queue subdirectory the active job file is renamed into
and the terminal status stamped onto it. -/

/-- Embeds `UpgradeManager.cancel_upgrade`: a non-empty job id is added to
the cancelled-jobs set and a non-empty device serial to the
cancelled-devices set. -/
def cancel_upgrade_cmd (cjobs cdevs : List String)
    (job_id device_serial : String) : List String × List String :=
  (if job_id ≠ "" then cjobs ++ [job_id] else cjobs,
   if device_serial ≠ "" then cdevs ++ [device_serial] else cdevs)

/-- Embeds `UpgradeManager._is_cancelled`. -/
def is_cancelled (cjobs cdevs : List String) (job_id serial : String) : Bool :=
  job_id ∈ cjobs ∨ serial ∈ cdevs

/-- Embeds the destination choice of `_execute_upgrade_with_completion`:
on success the job file goes to completed; on failure it goes to cancelled
only when the job id itself is in the cancelled-jobs set. -/
def route_job_dest (success : Bool) (cjobs : List String) (job_id : String) :
    String :=
  if success then "queue/completed"
  else if job_id ∈ cjobs then "queue/cancelled"
  else "queue/completed"

/-- Embeds the terminal status stamped onto the moved job file. -/
def completed_job_status (success : Bool) : String :=
  if success then "complete" else "failed"

/-! ## Concrete scenarios

Closed inputs used to settle the claims on particular runs.  Versions and
paths follow the scenarios of the spec (a device at 10.1.0 with paths
through 10.2.x to 11.0.0). -/

def testCfg : ManagerConfig := { min_disk_gb := 5, download_retry_attempts := 3 }

/-- A durable status file of a device that was interrupted mid-download:
it started from 10.1.0 and its job is resumable. -/
def resumeFile : DeviceStatus :=
  { init_device_status "FW1" with
    starting_version := "10.1.0", current_version := "10.1.0",
    upgrade_status := "downloading" }

def c2paths : List (String × List String) := [("10.1.0", ["10.2.0"])]

/-- Device responses for the resume-at-target scenario: the image of the
live version is already on the box, installation and reboot succeed. -/
def c2env : FwEnv :=
  { validationPass := true, validationError := "", validationDisk := 100,
    cancelled := false, softwareCheckDone := false,
    dlInfo := fun _ => [{ version := "10.2.0", downloaded := "yes", current := "yes" }],
    disk := fun _ => 100,
    dlJob := fun _ _ => none, dlReports := fun _ _ => [],
    dlResult := fun _ _ => { success := false, stalled := false, details := "" },
    verifyInfo := [{ version := "10.2.0", downloaded := "yes", current := "yes" }],
    installJob := some "55", installReports := [],
    installResult := { success := true, stalled := false, details := "" },
    rebootOk := true, readyOk := true }

def c5path : List String := ["10.2.0", "10.2.5", "11.0.0"]

/-- Status of a device whose three-hop path is about to be executed. -/
def c5st : DeviceStatus :=
  { init_device_status "FW1" with
    starting_version := "10.1.0",
    upgrade_path := c5path,
    target_version := "11.0.0", upgrade_status := "downloading" }

/-- Device responses for the verification-gate scenario: every image of
the path is reported as already downloaded during the download loop, so
the run reaches the verification gate, whose `software_info` re-read is
the parameter. -/
def c5env (vinfo : List SwEntry) : FwEnv :=
  { validationPass := true, validationError := "", validationDisk := 100,
    cancelled := false, softwareCheckDone := false,
    dlInfo := fun idx => match idx with
      | 0 => [{ version := "10.2.0", downloaded := "yes", current := "no" }]
      | 1 => [{ version := "10.2.5", downloaded := "yes", current := "no" }]
      | _ => [{ version := "11.0.0", downloaded := "yes", current := "no" }],
    disk := fun _ => 100,
    dlJob := fun _ _ => none, dlReports := fun _ _ => [],
    dlResult := fun _ _ => { success := false, stalled := false, details := "" },
    verifyInfo := vinfo,
    installJob := some "55", installReports := [],
    installResult := { success := true, stalled := false, details := "" },
    rebootOk := true, readyOk := true }

/-- Device responses for the progress-write scenario: the first two images
of the three-hop path are already on the box, the third downloads on the
first attempt, reporting 5 percent before finishing. -/
def c7env : FwEnv :=
  { validationPass := true, validationError := "", validationDisk := 100,
    cancelled := false, softwareCheckDone := false,
    dlInfo := fun idx => match idx with
      | 0 => [{ version := "10.2.0", downloaded := "yes", current := "no" }]
      | 1 => [{ version := "10.2.5", downloaded := "yes", current := "no" }]
      | _ => [],
    disk := fun _ => 100,
    dlJob := fun _ _ => some "42",
    dlReports := fun _ _ => [5],
    dlResult := fun _ _ => { success := true, stalled := false, details := "" },
    verifyInfo := [{ version := "10.2.0", downloaded := "yes", current := "no" },
                   { version := "10.2.5", downloaded := "yes", current := "no" },
                   { version := "11.0.0", downloaded := "yes", current := "no" }],
    installJob := some "55", installReports := [],
    installResult := { success := true, stalled := false, details := "" },
    rebootOk := true, readyOk := true }

/-- The cancellation sets after processing a cancel command that targets
device serial FW1 only (no job id), as `_handle_cancel_command` submits
for a device-targeted cancel file. -/
def c6sets : List String × List String := cancel_upgrade_cmd [] [] "" "FW1"

/-- Device responses for the cancellation scenario: the cancel flag is
exactly what `_is_cancelled` computes for job job-1 on device FW1 after
the device-targeted cancel command. -/
def c6env : FwEnv :=
  { validationPass := true, validationError := "", validationDisk := 100,
    cancelled := is_cancelled c6sets.1 c6sets.2 "job-1" "FW1",
    softwareCheckDone := false,
    dlInfo := fun _ => [], disk := fun _ => 100,
    dlJob := fun _ _ => none, dlReports := fun _ _ => [],
    dlResult := fun _ _ => { success := false, stalled := false, details := "" },
    verifyInfo := [],
    installJob := none, installReports := [],
    installResult := { success := false, stalled := false, details := "" },
    rebootOk := true, readyOk := true }

/-- Checks that any two consecutive status writes that carry the same
`current_phase` have non-decreasing progress. -/
def phaseMonotoneOk : List StatusWrite → Bool
  | [] => true
  | [_] => true
  | a :: b :: rest =>
    (!(a.phase == b.phase) || decide (a.progress ≤ b.progress)) &&
      phaseMonotoneOk (b :: rest)

/-- Monotonicity of persisted progress within one phase, as the spec
states it: any two consecutive status writes that carry the same
`current_phase` have non-decreasing progress. -/
def MonotoneWithinPhase (ws : List StatusWrite) : Prop :=
  phaseMonotoneOk ws = true

/-- Checks that a list of progress reports is strictly increasing. -/
def strictlyIncreasingInt : List Int → Bool
  | [] => true
  | [_] => true
  | a :: b :: rest => decide (a < b) && strictlyIncreasingInt (b :: rest)

/-- The poll trace used against the claimed callback condition: progress
50, then 40, then a successful finish at 100. -/
def c4trace : List JobStatusObs :=
  [{ status := "ACT", result := "", progress_str := "50", details := "" },
   { status := "ACT", result := "", progress_str := "40", details := "" },
   { status := "FIN", result := "OK", progress_str := "100", details := "" }]

/-- The run state at the entry of the verification gate for the
three-hop scenario: pre-flight passed, the software list was refreshed,
and all three images were found already downloaded (the value of the
phase pipeline before `verifyPhase`, independent of the verification
re-read). -/
def c5preVerify : RunState :=
  { st := {
      serial := "FW1",
      hostname := "FW1",
      ha_role := "standalone",
      current_version := "",
      starting_version := "10.1.0",
      target_version := "11.0.0",
      upgrade_path := ["10.2.0", "10.2.5", "11.0.0"],
      current_path_index := 2,
      upgrade_status := "downloading",
      progress := 38,
      current_phase := "download",
      upgrade_message := "Version 11.0.0 already downloaded",
      disk_available_gb := some 100,
      disk_required_gb := some 5,
      disk_check_passed := true,
      downloaded_versions := [],
      skipped_versions := ["10.2.0", "10.2.5", "11.0.0"],
      ready_for_install := false,
      skip_reason := "",
      errors := [] },
    writes := [
      { phase := "pre_flight_validation", progress := 5, status := "validating" },
      { phase := "pre_flight_validation", progress := 10, status := "validating" },
      { phase := "download", progress := 15, status := "downloading" },
      { phase := "download", progress := 15, status := "downloading" },
      { phase := "download", progress := 15, status := "downloading" },
      { phase := "download", progress := 26, status := "downloading" },
      { phase := "download", progress := 26, status := "downloading" },
      { phase := "download", progress := 38, status := "downloading" },
      { phase := "download", progress := 38, status := "downloading" }],
    actions := [Action.validateDevice, Action.refreshSoftwareList] }

/-- The phase pipeline of `_execute_upgrade_path` after the verification
gate, for the three-hop scenario. -/
def c5contin (vinfo : List SwEntry) : RunState → Except RunState RunState :=
  fun rs =>
    installPhase (c5env vinfo) "11.0.0" rs >>= fun rs =>
    rebootPhase (c5env vinfo) "11.0.0" rs >>= fun rs =>
    postflightPhase "11.0.0" rs >>= fun rs =>
    pure (finalizePhase "11.0.0" rs)

/-! ## Claim theorems -/

/-- The three-hop run reduces to the verification gate applied to the
concrete pre-verify state followed by the remaining phases: the phases
before the gate never consult the verification re-read. -/
theorem c5run_eq (vinfo : List SwEntry) :
    execute_upgrade_path testCfg (c5env vinfo) c5st =
      (match verifyPhase (c5env vinfo) c5path c5preVerify >>= c5contin vinfo with
       | Except.ok rs => (rs, true)
       | Except.error rs => (rs, false)) := rfl

/-- C10: if `atomic_write_json` fails at any point after creating its
temporary file (serialization, flush, fsync, or the final rename), the
temporary file is removed, the destination is left unchanged, and the
exception is re-raised; when no step fails the destination atomically
becomes the new value. -/
theorem atomic_write_json_failure_preserves_dest :
    ∀ {A : Type} (fs : FsState A) (data : A),
    (∀ step : WriteStep, atomic_write_json fs data (some step) =
      ({ dest := fs.dest, tempExists := false }, Except.error ())) ∧
    atomic_write_json fs data none =
      ({ dest := some data, tempExists := false }, Except.ok ()) := by
  intro A fs data
  constructor
  · intro step
    cases step <;> rfl
  · rfl

/-- C9 counterexample: the claim caps the token count at
`requests_per_minute / 60`, but the bucket of the source starts full at
`requests_per_minute` tokens, so after one acquire call at rate 120 per
minute the bucket still holds 119 tokens, far above 120 / 60 = 2. -/
theorem rate_limiter_exceeds_claimed_capacity :
    (120 : Rat) / 60 <
      (rate_limiter_acquire (rate_limiter_init 120 0) 0).2.tokens := by
  norm_num [rate_limiter_acquire, rate_limiter_refill, rate_limiter_init]

/-- C9 amended: the limiter is a token bucket of capacity
`requests_per_minute` (not `requests_per_minute / 60`), starting full and
refilled continuously at `requests_per_minute / 60` tokens per second; an
acquire attempt succeeds exactly when a whole token is available after
the refill, consuming one token, and a non-blocking attempt returns false
leaving the refilled balance in place. -/
theorem rate_limiter_amended_invariants :
    ∀ (rl : RateLimiterState) (now : Rat) (r t0 : Rat),
    (rate_limiter_acquire rl now).2.tokens ≤ rl.requests_per_minute ∧
    ((rate_limiter_acquire rl now).1 = true ↔ 1 ≤ rate_limiter_refill rl now) ∧
    ((rate_limiter_acquire rl now).1 = true →
      (rate_limiter_acquire rl now).2.tokens = rate_limiter_refill rl now - 1) ∧
    ((rate_limiter_acquire rl now).1 = false →
      (rate_limiter_acquire rl now).2.tokens = rate_limiter_refill rl now) ∧
    (rate_limiter_init r t0).tokens = r := by
  intro rl now r t0
  have hcap : rate_limiter_refill rl now ≤ rl.requests_per_minute :=
    min_le_left _ _
  by_cases h : 1 ≤ rate_limiter_refill rl now
  · refine ⟨?_, ?_, ?_, ?_, rfl⟩
    all_goals simp [rate_limiter_acquire, h]
    all_goals linarith
  · refine ⟨?_, ?_, ?_, ?_, rfl⟩
    all_goals simp [rate_limiter_acquire, h]
    all_goals linarith

/-- C8 counterexample: the claim says the parser returns 0 instead of
raising on unparseable input, but an available column such as `1.2.3G`
matches the numeric pattern of the source while `float()` raises
`ValueError`, so the parser raises instead of returning 0. -/
theorem disk_space_parse_raises_on_bad_number :
    parse_disk_space_output
        "Filesystem Size Used Avail Use% Mounted on\n/dev/sda5 7.6G 4.0G 1.2.3G 55% /opt/pancfg"
      = Except.error () ∧
    (Except.error () : Except Unit Rat) ≠ Except.ok 0 := by
  exact ⟨by decide, by decide⟩

/-- C8 amended: the parser skips the header line, matches the mount
exactly at end of line (a `_backup` suffix line never matches and the
parser falls back to the root mount), accepts the G, M, K and T suffixes
with a bare number treated as bytes, and returns 0 when no candidate line
parses; however, when the available column of the selected line matches
the numeric pattern but is not a valid number (for example two dots), the
parser raises instead of returning 0. -/
theorem disk_space_parse_amended_behavior :
    parse_disk_space_output
        "Filesystem Size Used Avail Use% Mounted on\n/dev/sda5 7.6G 4.0G 3.3G 55% /opt/pancfg"
      = Except.ok (Rat.divInt 33 10) ∧
    parse_disk_space_output
        "Filesystem Size Used Avail Use% Mounted on\n/dev/sda9 20G 10G 9.9G 50% /opt/pancfg_backup\n/dev/sda1 8G 5G 2.5G 60% /"
      = Except.ok (Rat.divInt 5 2) ∧
    parse_disk_space_output "/dev/sda5 7.6G 4.0G 512M 55% /opt/pancfg"
      = Except.ok (Rat.divInt 1 2) ∧
    parse_disk_space_output "/dev/sda5 7.6G 4.0G 1T 55% /opt/pancfg"
      = Except.ok 1024 ∧
    parse_disk_space_output "/dev/sda5 7.6G 4.0G 1048576K 55% /opt/pancfg"
      = Except.ok 1 ∧
    parse_disk_space_output "/dev/sda5 7.6G 4.0G 1073741824 55% /opt/pancfg"
      = Except.ok 1 ∧
    parse_disk_space_output "totally unparseable" = Except.ok 0 ∧
    parse_disk_space_output
        "Filesystem Size Used Avail Use% Mounted on\n/dev/sda5 7.6G 4.0G 1.2.3G 55% /opt/pancfg_backup"
      = Except.ok 0 := by
  refine ⟨by decide, by decide, by decide, by decide, by decide, by decide,
    by decide, by decide⟩

/-- C2: the claim says a run whose live version equals the target version
terminates immediately as complete with no download, install or reboot;
but since the target version is the last element of the upgrade path, a
live version equal to the target is found by the in-path check first, so
the early-complete branch is not taken and the run proceeds to install the
version the device already runs and to reboot it.  Concretely: a resumable
device with starting version 10.1.0 and path [10.2.0] whose live version
is already 10.2.0. -/
theorem live_at_target_still_installs_and_reboots :
    isAlreadyComplete (upgrade_device_head c2paths (some resumeFile)
      (some "10.0.0.1") "10.2.0" "fw1" "FW1") = false ∧
    (upgrade_device_run testCfg c2env c2paths (some resumeFile)
      (some "10.0.0.1") "10.2.0" "fw1" "FW1").1.st.target_version = "10.2.0" ∧
    Action.installStart "10.2.0" ∈ (upgrade_device_run testCfg c2env c2paths
      (some resumeFile) (some "10.0.0.1") "10.2.0" "fw1" "FW1").1.actions ∧
    Action.rebootDevice ∈ (upgrade_device_run testCfg c2env c2paths
      (some resumeFile) (some "10.0.0.1") "10.2.0" "fw1" "FW1").1.actions := by
  refine ⟨by decide, by decide, by decide, by decide⟩

/-- C6: the claim says a cancellation (by job id or device serial) makes
the task set `upgrade_status = cancelled`, never failed, and moves the
job file to queue/cancelled.  The checkpoint write does record cancelled,
but the tail of `upgrade_device` then overwrites the durable status with
failed, and the completion router of the daemon consults only the
cancelled-jobs set, so a cancellation registered by device serial alone
also sends the job file to queue/completed instead of queue/cancelled. -/
theorem device_serial_cancel_misroutes_job_file :
    is_cancelled c6sets.1 c6sets.2 "job-1" "FW1" = true ∧
    { phase := "download", progress := 15, status := "cancelled" } ∈
      (upgrade_device_run testCfg c6env c2paths (some resumeFile)
        (some "10.0.0.1") "10.1.0" "fw1" "FW1").1.writes ∧
    (upgrade_device_run testCfg c6env c2paths (some resumeFile)
      (some "10.0.0.1") "10.1.0" "fw1" "FW1").1.st.upgrade_status = "failed" ∧
    (upgrade_device_run testCfg c6env c2paths (some resumeFile)
      (some "10.0.0.1") "10.1.0" "fw1" "FW1").2 = false ∧
    route_job_dest false c6sets.1 "job-1" = "queue/completed" ∧
    "queue/completed" ≠ "queue/cancelled" := by
  refine ⟨by decide, by decide, by decide, by decide, by decide, by decide⟩

/-- C7: the claim says progress persisted by consecutive status writes in
the same phase never decreases; but the per-version base written at the
start of a download iteration is `15 + (idx * 35) / total` while the
progress callback uses `15 + idx * (35 / total)`, and for a three-image
path at index 2 these are 38 and 37: the run writes progress 38 and then
37 within the download phase. -/
theorem download_progress_write_decreases_within_phase :
    ¬ MonotoneWithinPhase (execute_upgrade_path testCfg c7env c5st).1.writes ∧
    (execute_upgrade_path testCfg c7env c5st).1.writes.get? 9 =
      some { phase := "download", progress := 38, status := "downloading" } ∧
    (execute_upgrade_path testCfg c7env c5st).1.writes.get? 10 =
      some { phase := "download", progress := 37, status := "downloading" } := by
  refine ⟨fun h => ?_, by decide, by decide⟩
  exact absurd (show phaseMonotoneOk
    (execute_upgrade_path testCfg c7env c5st).1.writes = true from h) (by decide)

/-- C4 counterexample: the claim says the progress callback fires only
when progress strictly increases; but the source fires it whenever the
parsed progress differs from the previous report, so a poll trace whose
progress moves 50, 40, 100 invokes the callback at the decreased value 40
(the fired sequence is not strictly increasing from the initial -1). -/
theorem progress_callback_fires_on_decrease :
    (wait_for_download_loop c4trace (-1)).1 = [50, 40, 100] ∧
    strictlyIncreasingInt ((-1 : Int) :: (wait_for_download_loop c4trace (-1)).1)
      = false := by
  refine ⟨by decide, by decide⟩

/-- C5: after the download phase of a real (non-dry-run) upgrade the
verification gate re-reads `software_info`; the missing list is exactly
the versions of the upgrade path not reported downloaded, and whenever it
is non-empty the run terminates with `upgrade_status = failed`, an error
message enumerating exactly the missing versions, and no install command
is ever issued. -/
theorem verify_gate_blocks_install :
    ∀ (vinfo : List SwEntry),
    verify_all_images_downloaded vinfo c5path =
      c5path.filter (fun v => ¬ v ∈ (vinfo.filter
        (fun sw => pyLower sw.downloaded = "yes")).map (fun sw => sw.version)) ∧
    (verify_all_images_downloaded vinfo c5path ≠ [] →
      (execute_upgrade_path testCfg (c5env vinfo) c5st).2 = false ∧
      (execute_upgrade_path testCfg (c5env vinfo) c5st).1.st.upgrade_status
        = "failed" ∧
      (execute_upgrade_path testCfg (c5env vinfo) c5st).1.st.upgrade_message
        = "Verification failed: missing images: " ++
          String.intercalate ", " (verify_all_images_downloaded vinfo c5path) ∧
      ∀ v, Action.installStart v ∉
        (execute_upgrade_path testCfg (c5env vinfo) c5st).1.actions) := by
  intro vinfo
  refine ⟨rfl, fun hne => ?_⟩
  have hE : (verify_all_images_downloaded vinfo c5path).isEmpty = false := by
    cases hv : verify_all_images_downloaded vinfo c5path with
    | nil => exact absurd hv hne
    | cons a l => rfl
  rw [c5run_eq vinfo]
  simp only [verifyPhase, c5env, hE, Bool.false_eq_true, if_false]
  refine ⟨rfl, rfl, rfl, ?_⟩
  intro v h
  have h2 : Action.installStart v ∈
      [Action.validateDevice, Action.refreshSoftwareList] := h
  simp at h2

/-- C5 witness: with a verification re-read reporting nothing downloaded,
the three-hop run fails at the gate. -/
theorem verify_gate_blocks_install_witness :
    (execute_upgrade_path testCfg (c5env []) c5st).1.st.upgrade_status
      = "failed" :=
  ((verify_gate_blocks_install []).2 (by decide)).2.1

/-- Every value the download poller hands to the progress callback differs
from the previously reported one (the callback never fires on equal
progress). -/
theorem download_fired_chain :
    ∀ (tr : List JobStatusObs) (lastP : Int),
    List.Chain' (fun a b => a ≠ b) (lastP :: (wait_for_download_loop tr lastP).1) := by
  intro tr
  induction tr with
  | nil =>
    intro lastP
    simp [wait_for_download_loop]
  | cons obs rest ih =>
    intro lastP
    by_cases hf : obs.status = "FIN"
    · by_cases hp : pyToIntOr0 obs.progress_str = lastP
      · simp [wait_for_download_loop, hf, hp]
      · simp [wait_for_download_loop, hf, hp]
        exact Ne.symm hp
    · by_cases hp : pyToIntOr0 obs.progress_str = lastP
      · simpa [wait_for_download_loop, hf, hp] using ih lastP
      · have h2 := ih (pyToIntOr0 obs.progress_str)
        simp [wait_for_download_loop, hf, hp, List.chain'_cons]
        refine ⟨Ne.symm hp, ?_⟩
        simpa using h2

/-- Every value the install poller hands to the progress callback differs
from the previously reported one. -/
theorem install_fired_chain :
    ∀ (tr : List JobStatusObs) (lastP : Int),
    List.Chain' (fun a b => a ≠ b) (lastP :: (wait_for_install_loop tr lastP).1) := by
  intro tr
  induction tr with
  | nil =>
    intro lastP
    simp [wait_for_install_loop]
  | cons obs rest ih =>
    intro lastP
    by_cases hf : obs.status = "FIN"
    · by_cases hp : pyToIntOr0 obs.progress_str = lastP
      · simp [wait_for_install_loop, hf, hp]
      · simp [wait_for_install_loop, hf, hp]
        exact Ne.symm hp
    · by_cases hp : pyToIntOr0 obs.progress_str = lastP
      · simpa [wait_for_install_loop, hf, hp] using ih lastP
      · have h2 := ih (pyToIntOr0 obs.progress_str)
        simp [wait_for_install_loop, hf, hp, List.chain'_cons]
        refine ⟨Ne.symm hp, ?_⟩
        simpa using h2

/-- C4 amended: in both pollers the progress callback is invoked exactly
when the parsed progress differs from the previously reported value:
never on equal progress, though also on strictly decreased progress, not
only on increases. -/
theorem progress_callback_fires_only_on_change :
    ∀ (tr : List JobStatusObs) (lastP : Int),
    List.Chain' (fun a b => a ≠ b)
      (lastP :: (wait_for_download_loop tr lastP).1) ∧
    List.Chain' (fun a b => a ≠ b)
      (lastP :: (wait_for_install_loop tr lastP).1) :=
  fun tr lastP => ⟨download_fired_chain tr lastP, install_fired_chain tr lastP⟩

/-- Once the poller has seen progress `p` and the job keeps reporting
non-advancing active status, the stall deadline fires: with `lastAdv` the
time of the last advance and at least `k + 1` further observations, the
poll returns `stalled p` as soon as the deadline `stall_timeout` fits in
the remaining polling window. -/
theorem wait_for_job_stall_aux (st dt p : Nat) :
    ∀ (k now lastAdv : Nat), lastAdv ≤ now → st ≤ now + k * dt - lastAdv →
    wait_for_job st dt (List.replicate (k + 1) (mkActObs p)) now p lastAdv =
      PollOutcome.stalled p := by
  intro k
  induction k with
  | zero =>
    intro now lastAdv h1 h2
    have hs : st ≤ now - lastAdv := by simpa using h2
    simp [wait_for_job, mkActObs, hs]
  | succ k ih =>
    intro now lastAdv h1 h2
    by_cases hs : st ≤ now - lastAdv
    · simp [wait_for_job, mkActObs, hs]
    · have h2a : st ≤ (now + dt) + k * dt - lastAdv := by
        have hm : (k + 1) * dt = k * dt + dt := by ring
        rw [hm] at h2
        omega
      have h1a : lastAdv ≤ now + dt := Nat.le_trans h1 (Nat.le_add_right _ _)
      have hrec := ih (now + dt) lastAdv h1a h2a
      simpa [wait_for_job, mkActObs, hs] using hrec

/-- C3: modelled from the spec (the stall-aware poller invoked by the
upgrade manager is absent from the source tree): when the reported
progress never advances past its first report for at least
`stall_timeout` seconds, the poll aborts with `Stalled` carrying the last
observed progress; a `FIN` status with a non-OK result returns `Failed`
with the device details; and the two outcomes are distinct variants. -/
theorem stall_timeout_distinct_from_failure :
    (∀ (st dt p n : Nat), 0 < dt → st ≤ n * dt →
      wait_for_job st dt (List.replicate (n + 2) (mkActObs p)) 0 0 0 =
        PollOutcome.stalled p) ∧
    (∀ (st dt : Nat) (tr : List JobObs) (obs : JobObs)
        (now lastP lastAdv : Nat),
      obs.status = "FIN" → obs.result ≠ "OK" →
      wait_for_job st dt (obs :: tr) now lastP lastAdv =
        PollOutcome.failed obs.details) ∧
    (∀ (p : Nat) (d : String),
      PollOutcome.stalled p ≠ PollOutcome.failed d) := by
  refine ⟨?_, ?_, ?_⟩
  · intro st dt p n hdt hst
    have hstep : wait_for_job st dt (List.replicate (n + 2) (mkActObs p)) 0 0 0 =
        (if st ≤ 0 then PollOutcome.stalled p
         else wait_for_job st dt (List.replicate (n + 1) (mkActObs p)) dt p 0) := by
      rcases Nat.eq_zero_or_pos p with hp | hp
      · simp [wait_for_job, mkActObs, hp, List.replicate_succ]
      · simp [wait_for_job, mkActObs, hp, List.replicate_succ]
    rw [hstep]
    by_cases h0 : st ≤ 0
    · simp [h0]
    · have h2 : st ≤ dt + n * dt - 0 := by
        have : n * dt + dt = (n + 1) * dt := by ring
        omega
      simp only [h0, if_false]
      exact wait_for_job_stall_aux st dt p n dt 0 (Nat.zero_le _) h2
  · intro st dt tr obs now lastP lastAdv hf hr
    simp [wait_for_job, hf, hr]
  · intro p d
    simp

/-- C3 witness: a stall timeout of 3 seconds with one-second polls and a
job stuck at progress 42 stalls with last progress 42, while an immediate
FIN/FAIL classifies as Failed, and the two differ. -/
theorem stall_timeout_distinct_from_failure_witness :
    wait_for_job 3 1 (List.replicate 5 (mkActObs 42)) 0 0 0 =
      PollOutcome.stalled 42 ∧
    wait_for_job 3 1
        [{ status := "FIN", result := "FAIL", progress := 0,
           details := "Connection timeout to update server" }] 0 0 0 =
      PollOutcome.failed "Connection timeout to update server" ∧
    PollOutcome.stalled 42 ≠ PollOutcome.failed "oops" := by
  refine ⟨?_, ?_, ?_⟩
  · exact stall_timeout_distinct_from_failure.1 3 1 42 3 (by decide) (by decide)
  · exact stall_timeout_distinct_from_failure.2.1 3 1 []
      { status := "FIN", result := "FAIL", progress := 0,
        details := "Connection timeout to update server" } 0 0 0 rfl (by decide)
  · exact stall_timeout_distinct_from_failure.2.2 42 "oops"

/-- C1: a durable status file with a non-terminal status and a non-empty
starting version is resumed rather than re-initialized (its progress
fields survive into the run), and the upgrade path is looked up from the
stored starting version, never from the live version, so a partially
progressed device resolves the same path; on a first run with no such
file the starting version is set to the live version, which is then used
for the lookup, and a resumed run never overwrites it. -/
theorem upgrade_device_resume_and_first_run :
    ∀ (paths : List (String × List String)) (d : DeviceStatus)
      (ip live hostname serial : String),
    d.upgrade_status ∈ in_progress_statuses →
    d.starting_version ≠ "" →
    load_existing_device_status (some d) = some d ∧
    (∀ st, upgrade_device_head paths (some d) (some ip) live hostname serial =
        HeadOutcome.proceed st →
      st.starting_version = d.starting_version ∧
      st.upgrade_path = (paths.lookup d.starting_version).getD [] ∧
      st.downloaded_versions = d.downloaded_versions ∧
      st.progress = d.progress) ∧
    (∀ st v, upgrade_device_head paths (some d) (some ip) live hostname serial =
        HeadOutcome.skippedNoPath st v → v = d.starting_version) ∧
    (∀ st, upgrade_device_head paths none (some ip) live hostname serial =
        HeadOutcome.proceed st →
      st.starting_version = live ∧
      st.upgrade_path = (paths.lookup live).getD []) := by
  intro paths d ip live hostname serial hin hsv
  have hload : load_existing_device_status (some d) = some d := by
    simp [load_existing_device_status, hin, hsv]
  refine ⟨hload, ?_, ?_, ?_⟩
  · intro st hst
    unfold upgrade_device_head at hst
    rw [hload] at hst
    simp only [hsv, if_pos, ite_true, if_true, ne_eq, not_false_iff] at hst
    cases hlk : List.lookup d.starting_version paths with
    | none =>
      rw [hlk] at hst
      exact absurd hst (by simp)
    | some upath =>
      rw [hlk] at hst
      by_cases hmem : live ∈ upath
      · simp only [hmem, if_pos, ite_true] at hst
        cases hst
        exact ⟨rfl, by simp [hlk], rfl, rfl⟩
      · simp only [hmem, if_neg, ite_false] at hst
        by_cases htv : live = upath.getLast?.getD ""
        · simp only [htv, if_pos, ite_true] at hst
          exact absurd hst (by simp)
        · simp only [htv, if_neg, ite_false] at hst
          cases hst
          exact ⟨rfl, by simp [hlk], rfl, rfl⟩
  · intro st v hst
    unfold upgrade_device_head at hst
    rw [hload] at hst
    simp only [hsv, if_pos, ite_true, if_true, ne_eq, not_false_iff] at hst
    cases hlk : List.lookup d.starting_version paths with
    | none =>
      rw [hlk] at hst
      cases hst
      rfl
    | some upath =>
      simp only [hlk] at hst
      by_cases hmem : live ∈ upath
      · rw [if_pos hmem] at hst
        exact absurd hst (by simp)
      · rw [if_neg hmem] at hst
        by_cases htv : live = upath.getLast?.getD ""
        · rw [if_pos htv] at hst
          exact absurd hst (by simp)
        · rw [if_neg htv] at hst
          exact absurd hst (by simp)
  · intro st hst
    unfold upgrade_device_head at hst
    simp only [load_existing_device_status, init_device_status, ne_eq,
      not_true_eq_false, not_false_eq_true, if_false, if_true, ite_false,
      ite_true] at hst
    cases hlk : List.lookup live paths with
    | none =>
      simp only [hlk] at hst
      exact absurd hst (by simp)
    | some upath =>
      simp only [hlk] at hst
      by_cases hmem : live ∈ upath
      · rw [if_pos hmem] at hst
        cases hst
        exact ⟨rfl, by simp [hlk]⟩
      · rw [if_neg hmem] at hst
        by_cases htv : live = upath.getLast?.getD ""
        · rw [if_pos htv] at hst
          exact absurd hst (by simp)
        · rw [if_neg htv] at hst
          cases hst
          exact ⟨rfl, by simp [hlk]⟩

/-- C1 witness: the stored mid-download status of device FW1 (status
downloading, starting version 10.1.0) is picked up for resume. -/
theorem upgrade_device_resume_and_first_run_witness :
    load_existing_device_status (some resumeFile) = some resumeFile :=
  (upgrade_device_resume_and_first_run c2paths resumeFile "10.0.0.1"
    "10.1.5" "fw1" "FW1" (by decide) (by decide)).1

end PanosUpgrade
